import Mathlib

/-!
# Verification of the titanic preprocessing pipeline

A shallow embedding of `src/ingest_split.py`, `src/transforms.py` and
`src/pipeline.py`.  Tables are modelled as lists of rows, a row being an
association list from column name to cell value.  Python call results are
modelled by `Except PyErr (Option DataFrame)`: `.ok (some df)` is a normal
return of a table, `.ok none` is Python's implicit `return None` (reached when
a transform catches an exception, logs it, and falls off the end of the
function), and `.error e` is an uncaught exception propagating to the caller.
-/

/-- Python exceptions that the modelled code can raise. -/
inductive PyErr where
  | keyError (k : String)
  | typeError
  | valueError
  | attributeError
  | unboundLocal (v : String)
deriving DecidableEq, Repr

/-- Cell values: numbers (Python ints and floats, modelled as rationals),
strings, and the missing-value marker NaN. -/
inductive PyVal where
  | vNum (q : ℚ)
  | vStr (s : String)
  | vNaN
deriving DecidableEq, Repr

/-- A row of a table: column name to cell value. -/
abbrev Row := List (String × PyVal)

/-- `row[c]`: first cell labelled `c`, if any. -/
def rowGet (r : Row) (c : String) : Option PyVal :=
  (r.find? (fun p => p.1 == c)).map (fun p => p.2)

/-- Replace the cell labelled `c` (or append it) with value `v`. -/
def rowSet : Row → String → PyVal → Row
  | [], c, v => [(c, v)]
  | p :: r, c, v => if p.1 == c then (c, v) :: r else p :: rowSet r c v

/-- The pandas DataFrame abstraction: named columns, rows, and a row index. -/
structure DataFrame where
  cols : List String
  rows : List Row
  index : List PyVal
deriving DecidableEq, Repr

/-- `df.set_index(c, drop=True)`: raises KeyError when `c` is not a column;
otherwise the column becomes the row index and leaves the column set. -/
def DataFrame.setIndexOp (df : DataFrame) (c : String) : Except PyErr DataFrame :=
  if df.cols.contains c then
    .ok { cols := df.cols.erase c,
          rows := df.rows.map (fun r => r.filter (fun p => p.1 != c)),
          index := df.rows.map (fun r => (rowGet r c).getD .vNaN) }
  else .error (.keyError c)

/-- `df.drop(labels, axis=1)`: raises KeyError when a label is not a column. -/
def DataFrame.dropOp (df : DataFrame) (labels : List String) : Except PyErr DataFrame :=
  if labels.all (fun n => df.cols.contains n) then
    .ok { cols := df.cols.filter (fun c => !(labels.contains c)),
          rows := df.rows.map (fun r => r.filter (fun p => !(labels.contains p.1))),
          index := df.index }
  else .error (.keyError "labels not found in axis")

/-- `df[c] = vals`: overwrite a column, or add it as the last column. -/
def DataFrame.setColVals (df : DataFrame) (c : String) (vs : List PyVal) : DataFrame :=
  { cols := if df.cols.contains c then df.cols else df.cols ++ [c],
    rows := List.zipWith (fun r v => rowSet r c v) df.rows vs,
    index := df.index }

/-- `pd.isnull`. -/
def pdIsNull : PyVal → Bool
  | .vNaN => true
  | _ => false

/-- Python `==` between a cell value and a string key (NaN and numbers compare
unequal to strings). -/
def pyEqStr : PyVal → String → Bool
  | .vStr s, k => s == k
  | _, _ => false

/-- Python `int()` truncates a float toward zero. -/
def pyTruncQ (q : ℚ) : ℤ := if 0 ≤ q then ⌊q⌋ else ⌈q⌉

/-- Python `int(v)` on a cell: floats truncate, numeric strings parse,
NaN and other strings raise ValueError. -/
def pyIntOf : PyVal → Except PyErr ℤ
  | .vNum q => .ok (pyTruncQ q)
  | .vStr s =>
    match s.toInt? with
    | some n => .ok n
    | none => .error .valueError
  | .vNaN => .error .valueError

/-- `df.apply(f, axis=1)`: apply `f` to every row, short-circuiting on the
first row whose application raises. -/
def exceptMapList {α β : Type} (f : α → Except PyErr β) : List α → Except PyErr (List β)
  | [] => .ok []
  | a :: l =>
    match f a with
    | .error e => .error e
    | .ok b =>
      match exceptMapList f l with
      | .error e => .error e
      | .ok bs => .ok (b :: bs)

/-- Python-style sequential loop threading a value, stopping at the first
raised exception. -/
def exceptFoldList {α β : Type} (f : β → α → Except PyErr β) (init : β) :
    List α → Except PyErr β
  | [] => .ok init
  | a :: l =>
    match f init a with
    | .error e => .error e
    | .ok b => exceptFoldList f b l

/-! ## The regex of create_title_cat

`re.search` with a pattern matching a space, then a captured nonempty run of
ASCII letters, then a literal period, returning the leftmost match's capture. -/

def isAsciiAlpha (ch : Char) : Bool :=
  (('A' ≤ ch) && (ch ≤ 'Z')) || (('a' ≤ ch) && (ch ≤ 'z'))

/-- Attempt the pattern anchored at the head of the character list: a space,
a maximal nonempty run of letters, then a period. -/
def titleMatchAt : List Char → Option (List Char)
  | [] => none
  | ch :: rest =>
    if ch = ' ' then
      match rest.dropWhile isAsciiAlpha with
      | [] => none
      | d :: _ =>
        if d = '.' then
          if (rest.takeWhile isAsciiAlpha).isEmpty then none
          else some (rest.takeWhile isAsciiAlpha)
        else none
    else none

/-- Leftmost match: try the pattern at each successive start position. -/
def titleSearch : List Char → Option (List Char)
  | [] => none
  | ch :: rest =>
    match titleMatchAt (ch :: rest) with
    | some run => some run
    | none => titleSearch rest

/-- The capture of the title regex on a string, or `""` when there is no
match (the `else` branch of `extract_title`). -/
def extract_title_str (s : String) : String :=
  match titleSearch s.data with
  | some run => String.mk run
  | none => ""

/-- The row-level `extract_title` closure: `row[source_column]` raises KeyError
when the column is absent, `re.search` raises TypeError on a non-string. -/
def extract_title (row : Row) (source_column : String) : Except PyErr String :=
  match rowGet row source_column with
  | none => .error (.keyError source_column)
  | some (.vStr s) => .ok (extract_title_str s)
  | some _ => .error .typeError

/-- `Series.replace(codes)`: map every element that is a key of the code table
to its value; elements that are not keys pass through unchanged. -/
def seriesReplace (codes : List (String × String)) (t : String) : String :=
  match codes.find? (fun p => p.1 == t) with
  | some p => p.2
  | none => t

/-! ## The transform functions

Each takes `Option DataFrame` because a pipeline step receives the previous
step's return value, which may be Python's `None`. -/

/-- `set_df_index`: the `return df_out` sits OUTSIDE the try block, so when
`set_index` raises (also when the input is `None`), the except branch logs and
then the return statement itself raises UnboundLocalError on `df_out`. -/
def set_df_index (x : Option DataFrame) (df_index_col : String) :
    Except PyErr (Option DataFrame) :=
  match x with
  | none => .error (.unboundLocal "df_out")
  | some df =>
    match df.setIndexOp df_index_col with
    | .ok d => .ok (some d)
    | .error _ => .error (.unboundLocal "df_out")

/-- `drop_columns`: returns inside the try; on any failure the except branch
logs and the function returns `None`. -/
def drop_columns (x : Option DataFrame) (drop_column_names : List String) :
    Except PyErr (Option DataFrame) :=
  match x with
  | none => .ok none
  | some df =>
    match df.dropOp drop_column_names with
    | .ok d => .ok (some d)
    | .error _ => .ok none

/-- `create_title_cat`: copy the table, apply `extract_title` row-wise, map the
extracted tokens through the code table, store them in `dest_column`; on any
failure log and return `None`. -/
def create_title_cat (x : Option DataFrame) (source_column dest_column : String)
    (title_codes : List (String × String)) : Except PyErr (Option DataFrame) :=
  match x with
  | none => .ok none
  | some df =>
    match exceptMapList (fun r => extract_title r source_column) df.rows with
    | .ok titles =>
      .ok (some (df.setColVals dest_column
        (titles.map (fun t => PyVal.vStr (seriesReplace title_codes t)))))
    | .error _ => .ok none

/-- The row-level `infer_age` closure: on a missing source value it loops over
the code table assigning `age` on a key match, so with no matching key (or an
empty table) the final `return age` raises UnboundLocalError; on a present
value it returns `int(value)`. -/
def infer_age (row : Row) (source_column title_column : String)
    (age_codes : List (String × ℤ)) : Except PyErr PyVal :=
  match rowGet row source_column with
  | none => .error (.keyError source_column)
  | some v =>
    if pdIsNull v then
      match age_codes with
      | [] => .error (.unboundLocal "age")
      | _ :: _ =>
        match rowGet row title_column with
        | none => .error (.keyError title_column)
        | some tv =>
          match age_codes.find? (fun p => pyEqStr tv p.1) with
          | some p => .ok (.vNum (p.2 : ℚ))
          | none => .error (.unboundLocal "age")
    else
      match pyIntOf v with
      | .ok n => .ok (.vNum (n : ℚ))
      | .error e => .error e

/-- `impute_age`: copy the table, apply `infer_age` row-wise and overwrite the
source column; on any failure log and return `None`. -/
def impute_age (x : Option DataFrame) (source_column title_column : String)
    (age_codes : List (String × ℤ)) : Except PyErr (Option DataFrame) :=
  match x with
  | none => .ok none
  | some df =>
    match exceptMapList
        (fun r => infer_age r source_column title_column age_codes) df.rows with
    | .ok ages => .ok (some (df.setColVals source_column ages))
    | .error _ => .ok none

/-- `row[source_columns].sum()`: selecting a missing label raises KeyError,
summing over strings raises TypeError, NaN entries are skipped (pandas
`skipna` default). -/
def rowSumCols (row : Row) (source_columns : List String) : Except PyErr ℚ :=
  match exceptMapList
      (fun c => match rowGet row c with
        | some v => Except.ok v
        | none => Except.error (PyErr.keyError c)) source_columns with
  | .error e => .error e
  | .ok vs =>
    if vs.any (fun v => match v with | .vStr _ => true | _ => false) then
      .error .typeError
    else
      .ok (vs.foldl (fun acc v => match v with | .vNum q => acc + q | _ => acc) 0)

/-- `create_family_size`: copy the table, store the row-wise
`sum(source_columns) + 1` in `dest_column`; on any failure log and
return `None`. -/
def create_family_size (x : Option DataFrame) (source_columns : List String)
    (dest_column : String) : Except PyErr (Option DataFrame) :=
  match x with
  | none => .ok none
  | some df =>
    match exceptMapList
        (fun r => (rowSumCols r source_columns).map (fun q => PyVal.vNum (q + 1)))
        df.rows with
    | .ok vals => .ok (some (df.setColVals dest_column vals))
    | .error _ => .ok none

/-- Call semantics of `create_family_size` with the caller's table object made
explicit: the first component is the caller's table after the call returns.
The body's `df_out = df.copy()` makes `df_out` a fresh object, so the
mutation `df_out[dest_column] = ...` never reaches the caller's table. -/
def create_family_size_call (df : DataFrame) (source_columns : List String)
    (dest_column : String) : DataFrame × Except PyErr (Option DataFrame) :=
  match exceptMapList
      (fun r => (rowSumCols r source_columns).map (fun q => PyVal.vNum (q + 1)))
      df.rows with
  | .ok vals => (df, .ok (some (df.setColVals dest_column vals)))
  | .error _ => (df, .ok none)

/-! ## The pipeline composer (`pipeline.py`) -/

/-- A keyword-argument bundle drawn from `pipeline_parameters`. -/
inductive KwBundle where
  | setIdxArgs (df_index_col : String)
  | titleCatArgs (source_column dest_column : String)
      (title_codes : List (String × String))
  | imputeAgeArgs (source_column title_column : String)
      (age_codes : List (String × ℤ))
  | dropColsArgs (drop_column_names : List String)
deriving DecidableEq, Repr

/-- Which transform function a `FunctionTransformer` wraps. -/
inductive StepFunc where
  | fSetDfIndex
  | fCreateTitleCat
  | fImputeAge
  | fDropColumns
deriving DecidableEq, Repr

/-- Calling a `FunctionTransformer`'s function with its bound kw_args; a
bundle whose keywords do not fit the function raises TypeError at call time. -/
def runTransformer (f : StepFunc) (b : KwBundle) (x : Option DataFrame) :
    Except PyErr (Option DataFrame) :=
  match f, b with
  | .fSetDfIndex, .setIdxArgs c => set_df_index x c
  | .fCreateTitleCat, .titleCatArgs s d m => create_title_cat x s d m
  | .fImputeAge, .imputeAgeArgs s t m => impute_age x s t m
  | .fDropColumns, .dropColsArgs ns => drop_columns x ns
  | _, _ => .error .typeError

/-- An sklearn Pipeline of FunctionTransformer steps. -/
structure SkPipeline where
  steps : List (String × StepFunc × KwBundle)
deriving DecidableEq, Repr

/-- `pipeline.fit_transform(df)`: fold the table through the steps in list
order, each step receiving the previous step's return value. -/
def SkPipeline.fit_transform (p : SkPipeline) (df : DataFrame) :
    Except PyErr (Option DataFrame) :=
  exceptFoldList (fun x st => runTransformer st.2.1 st.2.2 x) (some df) p.steps

/-- The `pipeline_parameters` dictionary. -/
abbrev PipelineParams := List (String × KwBundle)

/-- Python `d[k]`: raises KeyError when the key is absent. -/
def dictGet (d : PipelineParams) (k : String) : Except PyErr KwBundle :=
  match d.find? (fun p => p.1 == k) with
  | some p => .ok p.2
  | none => .error (.keyError k)

/-- `create_pipeline`: unpack the four kw_args bundles (in source order), then
build the four-step pipeline in the fixed construction order. -/
def create_pipeline (pipeline_parameters : PipelineParams) :
    Except PyErr SkPipeline :=
  match dictGet pipeline_parameters "set_df_index_kw_args" with
  | .error e => .error e
  | .ok setIdxKw =>
    match dictGet pipeline_parameters "create_title_cat_kw_args" with
    | .error e => .error e
    | .ok titleCatKw =>
      match dictGet pipeline_parameters "drop_columns_kw_args" with
      | .error e => .error e
      | .ok dropColsKw =>
        match dictGet pipeline_parameters "impute_age_kw_args" with
        | .error e => .error e
        | .ok imputeAgeKw =>
          .ok { steps := [
            ("Set dataframe index", .fSetDfIndex, setIdxKw),
            ("Create title_cat column", .fCreateTitleCat, titleCatKw),
            ("Impute missing Age values", .fImputeAge, imputeAgeKw),
            ("Drop columns", .fDropColumns, dropColsKw)] }

/-- The explicit fold of a table through the four transforms in construction
order: set-index, then derive-title-category, then impute-age, then
drop-columns. -/
def pipeline_fold (df : DataFrame) (idxCol : String)
    (tcSrc tcDest : String) (tCodes : List (String × String))
    (iaSrc iaTitle : String) (aCodes : List (String × ℤ))
    (dropNames : List String) : Except PyErr (Option DataFrame) :=
  match set_df_index (some df) idxCol with
  | .error e => .error e
  | .ok x1 =>
    match create_title_cat x1 tcSrc tcDest tCodes with
    | .error e => .error e
    | .ok x2 =>
      match impute_age x2 iaSrc iaTitle aCodes with
      | .error e => .error e
      | .ok x3 => drop_columns x3 dropNames

/-! ## The int-to-float normalization of `ingest_split` (lines 80-87) -/

/-- numpy column dtypes. -/
inductive NpDtype where
  | int64
  | float64
  | objectD
deriving DecidableEq, Repr

/-- A table abstracted to its column dtypes, as the conversion loops see it. -/
structure TypedFrame where
  cols : List (String × NpDtype)
deriving DecidableEq, Repr

def TypedFrame.dtypeOf (t : TypedFrame) (c : String) : Option NpDtype :=
  (t.cols.find? (fun p => p.1 == c)).map (fun p => p.2)

def TypedFrame.colNames (t : TypedFrame) : List String := t.cols.map (fun p => p.1)

/-- A Python object that `isinstance(-, np.int64)` may be asked about:
`df[column]` is a pandas Series object, never an `np.int64` scalar. -/
inductive PandasObj where
  | series (dtype : NpDtype)
  | npInt64Scalar (v : ℤ)
deriving DecidableEq, Repr

/-- `isinstance(obj, np.int64)`: true only for an actual numpy int64 scalar;
a pandas Series is not an instance of `np.int64` whatever its dtype. -/
def isinstance_np_int64 : PandasObj → Bool
  | .npInt64Scalar _ => true
  | .series _ => false

/-- `df[c]`: the column as a Series object; KeyError when absent. -/
def TypedFrame.getCol (t : TypedFrame) (c : String) : Except PyErr PandasObj :=
  match t.dtypeOf c with
  | some d => .ok (.series d)
  | none => .error (.keyError c)

/-- `df[c] = df[c].astype(float)` at the dtype level. -/
def TypedFrame.astypeFloat (t : TypedFrame) (c : String) : TypedFrame :=
  { cols := t.cols.map (fun p => if p.1 == c then (p.1, NpDtype.float64) else p) }

/-- Lines 80-87 of `ingest_split.py`: the two conversion loops.  The first
iterates over the train table's columns testing
`isinstance(df_train[column], np.int64)`; the second iterates over the holdout
table's columns but tests and assigns `df_train[column]` — the train table —
so the holdout table is never touched. -/
def intLoopStep (tr : TypedFrame) (c : String) : Except PyErr TypedFrame :=
  match tr.getCol c with
  | .error e => .error e
  | .ok obj => .ok (if isinstance_np_int64 obj then tr.astypeFloat c else tr)

def convert_ints_to_floats (df_train df_holdout : TypedFrame) :
    Except PyErr (TypedFrame × TypedFrame) :=
  match exceptFoldList intLoopStep df_train df_train.colNames with
  | .error e => .error e
  | .ok tr1 =>
    match exceptFoldList intLoopStep tr1 df_holdout.colNames with
    | .error e => .error e
    | .ok tr2 => .ok (tr2, df_holdout)

/-! ## Spec-side definitions (for refinement statements)

These follow the specification's words, to be compared against the embedded
code above. -/

/-- Follows the spec's words for imputation (§4.5): a row with a missing
source value receives the fill value associated with its category; a row with
a present value keeps it coerced to a whole number. -/
def specImputeValue (r : Row) (source_column title_column : String)
    (age_codes : List (String × ℤ)) : PyVal :=
  match rowGet r source_column with
  | some PyVal.vNaN =>
    match rowGet r title_column with
    | some tv =>
      match age_codes.find? (fun p => pyEqStr tv p.1) with
      | some p => .vNum (p.2 : ℚ)
      | none => .vNaN
    | none => .vNaN
  | some (PyVal.vNum q) => .vNum ((pyTruncQ q : ℤ) : ℚ)
  | some (PyVal.vStr s) => .vStr s
  | none => .vNaN

/-- Follows the spec's words for family size (§4.6): the row-wise sum of the
source columns. -/
def specRowSum (r : Row) (source_columns : List String) : ℚ :=
  (source_columns.map
    (fun c => match rowGet r c with | some (PyVal.vNum q) => q | _ => 0)).sum

/-- A row is acceptable to `impute_age`: the source cell exists, and it is
either a number, or NaN with the row's category present in the code table. -/
def okAgeRow (r : Row) (source_column title_column : String)
    (age_codes : List (String × ℤ)) : Bool :=
  match rowGet r source_column with
  | none => false
  | some (PyVal.vNum _) => true
  | some (PyVal.vStr _) => false
  | some PyVal.vNaN =>
    match rowGet r title_column with
    | none => false
    | some tv => (age_codes.find? (fun p => pyEqStr tv p.1)).isSome

/-- The cell holds a string. -/
def isStrCell : Option PyVal → Bool
  | some (PyVal.vStr _) => true
  | _ => false

/-- The cell holds a number. -/
def isNumCell : Option PyVal → Bool
  | some (PyVal.vNum _) => true
  | _ => false

/-- The extracted token of a row whose source cell holds a string. -/
def rowTitleToken (r : Row) (source_column : String) : String :=
  match rowGet r source_column with
  | some (PyVal.vStr s) => extract_title_str s
  | _ => ""

/-! ## Helper lemmas -/

theorem rowGet_rowSet_self (r : Row) (c : String) (v : PyVal) :
    rowGet (rowSet r c v) c = some v := by
  induction r with
  | nil => simp [rowSet, rowGet]
  | cons p r ih =>
    by_cases h : p.1 = c
    · simp [rowSet, h, rowGet]
    · simp only [rowSet, h]
      simpa [rowGet, h] using ih

theorem rowGet_cons (p : String × PyVal) (r : Row) (c : String) :
    rowGet (p :: r) c = if p.1 == c then some p.2 else rowGet r c := by
  simp only [rowGet, List.find?_cons]
  cases h : (p.1 == c) <;> simp [h]

theorem rowGet_rowSet_ne (r : Row) (c c2 : String) (v : PyVal) (h : c2 ≠ c) :
    rowGet (rowSet r c v) c2 = rowGet r c2 := by
  have hcc2 : (c == c2) = false := by
    simp only [beq_eq_false_iff_ne]
    exact Ne.symm h
  induction r with
  | nil => simp [rowSet, rowGet_cons, hcc2, rowGet]
  | cons p r ih =>
    simp only [rowSet]
    by_cases hp : (p.1 == c) = true
    · have hpc2 : (p.1 == c2) = false := by
        rw [beq_iff_eq] at hp
        simp only [beq_eq_false_iff_ne, hp]
        exact Ne.symm h
      simp [hp, rowGet_cons, hcc2, hpc2]
    · have hp2 : (p.1 == c) = false := by simpa using hp
      simp [hp2, rowGet_cons, ih]

theorem rowSet_rowSet_same (r : Row) (c : String) (v : PyVal) :
    rowSet (rowSet r c v) c v = rowSet r c v := by
  induction r with
  | nil => simp [rowSet]
  | cons p r ih =>
    by_cases h : p.1 = c
    · simp [rowSet, h]
    · simp [rowSet, h, ih]

theorem exceptMapList_ok_of_fn {α β : Type} (f : α → Except PyErr β) (g : α → β) :
    ∀ l : List α, (∀ a ∈ l, f a = .ok (g a)) → exceptMapList f l = .ok (l.map g) := by
  intro l
  induction l with
  | nil => intro _; rfl
  | cons a l ih =>
    intro h
    have ha : f a = .ok (g a) := h a (List.mem_cons_self a l)
    have hl : exceptMapList f l = .ok (l.map g) :=
      ih (fun b hb => h b (List.mem_cons_of_mem a hb))
    simp [exceptMapList, ha, hl]

theorem exceptMapList_error_of_mem {α β : Type} (f : α → Except PyErr β)
    (l : List α) (a : α) (ha : a ∈ l) (e : PyErr) (he : f a = .error e) :
    ∃ e2, exceptMapList f l = .error e2 := by
  induction l with
  | nil => cases ha
  | cons b l ih =>
    rcases List.mem_cons.mp ha with rfl | hmem
    · exact ⟨e, by simp [exceptMapList, he]⟩
    · cases hb : f b with
      | error eb => exact ⟨eb, by simp [exceptMapList, hb]⟩
      | ok vb =>
        rcases ih hmem with ⟨e2, h2⟩
        exact ⟨e2, by simp [exceptMapList, hb, h2]⟩

theorem exceptMapList_ok_forall2 {α β : Type} (f : α → Except PyErr β) :
    ∀ (l : List α) (bs : List β), exceptMapList f l = .ok bs →
      List.Forall₂ (fun a b => f a = .ok b) l bs := by
  intro l
  induction l with
  | nil =>
    intro bs h
    simp only [exceptMapList] at h
    cases h
    exact List.Forall₂.nil
  | cons a l ih =>
    intro bs h
    simp only [exceptMapList] at h
    cases hfa : f a with
    | error e => rw [hfa] at h; cases h
    | ok b =>
      rw [hfa] at h
      cases hml : exceptMapList f l with
      | error e => rw [hml] at h; cases h
      | ok cs =>
        rw [hml] at h
        cases h
        exact List.Forall₂.cons hfa (ih cs hml)

theorem forall2_zipWith_map (P : Row → Row → Prop) (c : String)
    (g : Row → PyVal) :
    ∀ l : List Row, (∀ r ∈ l, P r (rowSet r c (g r))) →
      List.Forall₂ P l (List.zipWith (fun r v => rowSet r c v) l (l.map g)) := by
  intro l
  induction l with
  | nil => intro _; exact List.Forall₂.nil
  | cons r l ih =>
    intro h
    exact List.Forall₂.cons (h r (List.mem_cons_self r l))
      (ih (fun s hs => h s (List.mem_cons_of_mem r hs)))

/-! ## Concrete tables used in counterexamples and witnesses -/

def dfC3 : DataFrame :=
  { cols := ["A"], rows := [[("A", PyVal.vNum 1)]], index := [] }

def dfC4 : DataFrame :=
  { cols := ["Age", "TitleCat"],
    rows := [[("Age", PyVal.vNaN), ("TitleCat", PyVal.vStr "Rev")],
             [("Age", PyVal.vNum 22), ("TitleCat", PyVal.vStr "Mr")]],
    index := [] }

def ageCodesC4 : List (String × ℤ) := [("Mr", 30), ("Mrs", 35)]

def trC1 : TypedFrame :=
  { cols := [("PassengerId", .int64), ("Survived", .int64), ("Age", .float64)] }

def hoC1 : TypedFrame :=
  { cols := [("PassengerId", .int64), ("Age", .float64)] }

/-! ## Claim C1: the int-to-float normalization of ingest_split -/

theorem intLoopStep_ok (tr t2 : TypedFrame) (c : String)
    (h : intLoopStep tr c = .ok t2) : t2 = tr := by
  unfold intLoopStep TypedFrame.getCol at h
  cases hd : tr.dtypeOf c with
  | none => rw [hd] at h; cases h
  | some d =>
    rw [hd] at h
    simp only [isinstance_np_int64, if_neg Bool.false_ne_true, Except.ok.injEq] at h
    exact h.symm

theorem foldList_intLoopStep_ok :
    ∀ (names : List String) (tr0 tr1 : TypedFrame),
      exceptFoldList intLoopStep tr0 names = .ok tr1 → tr1 = tr0 := by
  intro names
  induction names with
  | nil =>
    intro tr0 tr1 h
    cases h
    rfl
  | cons c ns ih =>
    intro tr0 tr1 h
    simp only [exceptFoldList] at h
    cases hstep : intLoopStep tr0 c with
    | error e => rw [hstep] at h; cases h
    | ok t2 =>
      rw [hstep] at h
      rw [ih t2 tr1 h, intLoopStep_ok tr0 t2 c hstep]

/-- C1: refuted on the code (code bug).  The claim says ingest_split converts
each integer-typed column of both the train and the holdout table to float,
decided per column from that column's own type.  In the source (lines 80-87)
the conversion condition is `isinstance(df_train[column], np.int64)`, which is
false for every column because `df_train[column]` is a pandas Series, and the
holdout loop additionally tests and assigns `df_train[column]` rather than the
holdout's own column.  Hence the conversion block is a no-op: whenever it
returns, both tables come back exactly as loaded, and the concrete int64
holdout column `PassengerId` stays int64. -/
theorem ingest_int_conversion_is_no_op :
    (∀ (df_train df_holdout : TypedFrame) (out : TypedFrame × TypedFrame),
      convert_ints_to_floats df_train df_holdout = .ok out →
        out = (df_train, df_holdout)) ∧
    convert_ints_to_floats trC1 hoC1 = .ok (trC1, hoC1) ∧
    trC1.dtypeOf "Survived" = some NpDtype.int64 ∧
    hoC1.dtypeOf "PassengerId" = some NpDtype.int64 := by
  refine ⟨?_, by rfl, by rfl, by rfl⟩
  intro df_train df_holdout out h
  unfold convert_ints_to_floats at h
  cases h1 : exceptFoldList intLoopStep df_train df_train.colNames with
  | error e => rw [h1] at h; cases h
  | ok tr1 =>
    rw [h1] at h
    dsimp only at h
    cases h2 : exceptFoldList intLoopStep tr1 df_holdout.colNames with
    | error e => rw [h2] at h; cases h
    | ok tr2 =>
      rw [h2] at h
      cases h
      rw [foldList_intLoopStep_ok _ _ _ h2, foldList_intLoopStep_ok _ _ _ h1]

/-- C1 witness: the no-op theorem applied at the concrete failing input. -/
theorem ingest_int_conversion_is_no_op_witness :
    (trC1, hoC1) = (trC1, hoC1) ∧ hoC1.dtypeOf "PassengerId" = some NpDtype.int64 :=
  ⟨ingest_int_conversion_is_no_op.1 trC1 hoC1 (trC1, hoC1)
      ingest_int_conversion_is_no_op.2.1,
   ingest_int_conversion_is_no_op.2.2.2⟩

/-! ## Claim C3: failure behaviour at the transform boundary -/

/-- C3 counterexample: `set_df_index` on a non-existent index column does NOT
return an undefined/empty result to its caller — its `return df_out` statement
sits outside the try block, so after logging, the function raises
UnboundLocalError, an exception its caller sees. -/
theorem set_df_index_propagates_exception :
    set_df_index (some dfC3) "B" = .error (.unboundLocal "df_out") ∧
    ∀ y : Option DataFrame, set_df_index (some dfC3) "B" ≠ .ok y := by
  refine ⟨by rfl, ?_⟩
  intro y hy
  rw [show set_df_index (some dfC3) "B" = .error (.unboundLocal "df_out") from rfl] at hy
  cases hy

/-- C3 amended: `drop_columns`, `create_title_cat`, `impute_age` and
`create_family_size` catch a failing table operation at the function boundary,
log it, and return `None`; `set_df_index` also catches and logs, but then its
own return statement raises UnboundLocalError because `df_out` was never
bound, so the caller receives an exception rather than a return value. -/
theorem transform_failure_boundary :
    (∀ (df : DataFrame) (c : String), df.cols.contains c = false →
      set_df_index (some df) c = .error (.unboundLocal "df_out")) ∧
    (∀ (df : DataFrame) (ns : List String),
      (ns.all (fun n => df.cols.contains n)) = false →
      drop_columns (some df) ns = .ok none) ∧
    (∀ (df : DataFrame) (sc dc : String) (tcodes : List (String × String))
      (r : Row) (e : PyErr), r ∈ df.rows → extract_title r sc = .error e →
      create_title_cat (some df) sc dc tcodes = .ok none) ∧
    (∀ (df : DataFrame) (sc tc : String) (ac : List (String × ℤ))
      (r : Row) (e : PyErr), r ∈ df.rows → infer_age r sc tc ac = .error e →
      impute_age (some df) sc tc ac = .ok none) ∧
    (∀ (df : DataFrame) (cs : List String) (dest : String)
      (r : Row) (e : PyErr), r ∈ df.rows → rowSumCols r cs = .error e →
      create_family_size (some df) cs dest = .ok none) := by
  refine ⟨?_, ?_, ?_, ?_, ?_⟩
  · intro df c h
    have h2 : ¬ (c ∈ df.cols) := by simpa using h
    simp [set_df_index, DataFrame.setIndexOp, h2]
  · intro df ns h
    have h2 : ¬ ∀ x ∈ ns, x ∈ df.cols := by simpa using h
    simp [drop_columns, DataFrame.dropOp, h2]
  · intro df sc dc tcodes r e hr he
    obtain ⟨e2, h2⟩ :=
      exceptMapList_error_of_mem (fun r => extract_title r sc) df.rows r hr e he
    simp [create_title_cat, h2]
  · intro df sc tc ac r e hr he
    obtain ⟨e2, h2⟩ :=
      exceptMapList_error_of_mem (fun r => infer_age r sc tc ac) df.rows r hr e he
    simp [impute_age, h2]
  · intro df cs dest r e hr he
    obtain ⟨e2, h2⟩ := exceptMapList_error_of_mem
      (fun r => (rowSumCols r cs).map (fun q => PyVal.vNum (q + 1))) df.rows r hr e
      (by show (rowSumCols r cs).map (fun q => PyVal.vNum (q + 1)) = Except.error e
          rw [he]
          rfl)
    simp [create_family_size, h2]

/-- C3 amended witness: the boundary behaviour at concrete inputs. -/
theorem transform_failure_boundary_witness :
    set_df_index (some dfC3) "Z" = .error (.unboundLocal "df_out") ∧
    drop_columns (some dfC3) ["Z"] = .ok none :=
  ⟨transform_failure_boundary.1 dfC3 "Z" (by rfl),
   transform_failure_boundary.2.1 dfC3 ["Z"] (by rfl)⟩

/-! ## Claim C4: impute_age on a category missing from the fill-value map -/

/-- C4 counterexample: on a table whose first row has a missing Age and the
unmapped title category "Rev" (and a second, perfectly normal row), impute_age
does not return a table with the other rows processed and the bad row unset —
the row-level failure is caught at the function boundary and the whole call
returns `None`, losing every row. -/
theorem impute_age_unmapped_category_counterexample :
    impute_age (some dfC4) "Age" "TitleCat" ageCodesC4 = .ok none ∧
    ∀ d : DataFrame,
      impute_age (some dfC4) "Age" "TitleCat" ageCodesC4 ≠ .ok (some d) := by
  refine ⟨by rfl, ?_⟩
  intro d hd
  rw [show impute_age (some dfC4) "Age" "TitleCat" ageCodesC4 = .ok none from rfl]
    at hd
  cases hd

/-- C4 amended: when some row has a missing source value and a category absent
from the fill-value mapping, the row-level inference raises (the loop never
binds `age`), impute_age catches this at its boundary and returns `None` — no
table at all is returned, instead of a table in which that row is unset and
the other rows are processed normally. -/
theorem impute_age_unmapped_category_returns_none (df : DataFrame)
    (sc tc : String) (ac : List (String × ℤ))
    (h : ∃ r ∈ df.rows, rowGet r sc = some PyVal.vNaN ∧
      ∃ tv, rowGet r tc = some tv ∧
        ac.find? (fun p => pyEqStr tv p.1) = none) :
    impute_age (some df) sc tc ac = .ok none := by
  rcases h with ⟨r, hr, hnan, tv, htv, hfind⟩
  have herr : infer_age r sc tc ac = .error (.unboundLocal "age") := by
    unfold infer_age
    rw [hnan]
    simp only [pdIsNull, if_pos]
    cases ac with
    | nil => rfl
    | cons p ps =>
      dsimp only
      rw [htv]
      dsimp only
      rw [hfind]
  obtain ⟨e2, h2⟩ := exceptMapList_error_of_mem
    (fun r => infer_age r sc tc ac) df.rows r hr _ herr
  simp [impute_age, h2]

/-- C4 amended witness: the amended behaviour at the concrete table. -/
theorem impute_age_unmapped_category_returns_none_witness :
    impute_age (some dfC4) "Age" "TitleCat" ageCodesC4 = .ok none :=
  impute_age_unmapped_category_returns_none dfC4 "Age" "TitleCat" ageCodesC4
    ⟨[("Age", PyVal.vNaN), ("TitleCat", PyVal.vStr "Rev")],
     List.mem_cons_self _ _, by rfl, PyVal.vStr "Rev", by rfl, by rfl⟩

/-! ## Claim C10: create_family_size does not mutate the caller's table -/

/-- C10: the caller's table after a call to create_family_size is the table it
passed in — the body's `df.copy()` isolates the mutation that adds the
destination column — and the call's return value is exactly the
create_family_size result on that table. -/
theorem create_family_size_preserves_input (df : DataFrame)
    (source_columns : List String) (dest_column : String) :
    (create_family_size_call df source_columns dest_column).1 = df ∧
    (create_family_size_call df source_columns dest_column).2 =
      create_family_size (some df) source_columns dest_column := by
  unfold create_family_size_call create_family_size
  dsimp only
  cases h : exceptMapList
      (fun r => (rowSumCols r source_columns).map (fun q => PyVal.vNum (q + 1)))
      df.rows with
  | ok vals => exact ⟨rfl, rfl⟩
  | error e => exact ⟨rfl, rfl⟩

/-! ## Claim C9: create_pipeline fails on a missing kw_args bundle -/

def requiredKwKeys : List String :=
  ["set_df_index_kw_args", "create_title_cat_kw_args",
   "drop_columns_kw_args", "impute_age_kw_args"]

theorem dictGet_error_shape (d : PipelineParams) (k : String) (e : PyErr)
    (h : dictGet d k = .error e) : e = .keyError k := by
  unfold dictGet at h
  cases hf : d.find? (fun p => p.1 == k) with
  | some p => rw [hf] at h; cases h
  | none => rw [hf] at h; cases h; rfl

theorem dictGet_none (d : PipelineParams) (k : String)
    (h : d.find? (fun p => p.1 == k) = none) :
    dictGet d k = .error (.keyError k) := by
  unfold dictGet
  rw [h]

/-- C9: whenever any one of the four per-step kw_args keys is absent from
pipeline_parameters, create_pipeline fails at construction time with a
KeyError on one of those keys, before any table is applied — no pipeline
object is returned. -/
theorem create_pipeline_missing_key_fails (params : PipelineParams) (k : String)
    (hk : k ∈ requiredKwKeys)
    (hmiss : params.find? (fun p => p.1 == k) = none) :
    ∃ k2 ∈ requiredKwKeys, create_pipeline params = .error (.keyError k2) := by
  unfold create_pipeline
  cases g1 : dictGet params "set_df_index_kw_args" with
  | error e =>
    exact ⟨"set_df_index_kw_args", by simp [requiredKwKeys],
      by rw [dictGet_error_shape _ _ _ g1]⟩
  | ok b1 =>
    cases g2 : dictGet params "create_title_cat_kw_args" with
    | error e =>
      exact ⟨"create_title_cat_kw_args", by simp [requiredKwKeys],
        by rw [dictGet_error_shape _ _ _ g2]⟩
    | ok b2 =>
      cases g3 : dictGet params "drop_columns_kw_args" with
      | error e =>
        exact ⟨"drop_columns_kw_args", by simp [requiredKwKeys],
          by rw [dictGet_error_shape _ _ _ g3]⟩
      | ok b3 =>
        cases g4 : dictGet params "impute_age_kw_args" with
        | error e =>
          exact ⟨"impute_age_kw_args", by simp [requiredKwKeys],
            by rw [dictGet_error_shape _ _ _ g4]⟩
        | ok b4 =>
          exfalso
          have hdg := dictGet_none params k hmiss
          simp only [requiredKwKeys, List.mem_cons, List.not_mem_nil,
            or_false] at hk
          rcases hk with h | h | h | h
          · rw [h] at hdg; rw [hdg] at g1; cases g1
          · rw [h] at hdg; rw [hdg] at g2; cases g2
          · rw [h] at hdg; rw [hdg] at g3; cases g3
          · rw [h] at hdg; rw [hdg] at g4; cases g4

def paramsC9 : PipelineParams :=
  [("set_df_index_kw_args", .setIdxArgs "PassengerId"),
   ("create_title_cat_kw_args", .titleCatArgs "Name" "TitleCat"
      [("Mr", "gen_male")]),
   ("drop_columns_kw_args", .dropColsArgs ["Name"])]

/-- C9 witness: a parameter dictionary missing only impute_age_kw_args. -/
theorem create_pipeline_missing_key_fails_witness :
    ∃ k2 ∈ requiredKwKeys, create_pipeline paramsC9 = .error (.keyError k2) :=
  create_pipeline_missing_key_fails paramsC9 "impute_age_kw_args"
    (by simp [requiredKwKeys]) (by rfl)

/-! ## Claim C2: fit-and-apply folds through the steps in construction order -/

/-- C2: when the configuration binds the four steps, create_pipeline returns a
pipeline whose fit-and-apply operation, on every input table, equals the fold
of the table through the step functions in the fixed construction order:
set-index, then derive-title-category, then impute-age, then drop-columns —
no reordering happens at apply time. -/
theorem create_pipeline_fit_transform_in_order (params : PipelineParams)
    (idxCol tcSrc tcDest iaSrc iaTitle : String)
    (tCodes : List (String × String)) (aCodes : List (String × ℤ))
    (dropNames : List String)
    (h1 : dictGet params "set_df_index_kw_args" = .ok (.setIdxArgs idxCol))
    (h2 : dictGet params "create_title_cat_kw_args" =
      .ok (.titleCatArgs tcSrc tcDest tCodes))
    (h3 : dictGet params "drop_columns_kw_args" = .ok (.dropColsArgs dropNames))
    (h4 : dictGet params "impute_age_kw_args" =
      .ok (.imputeAgeArgs iaSrc iaTitle aCodes)) :
    ∃ pl, create_pipeline params = .ok pl ∧
      ∀ df : DataFrame, pl.fit_transform df =
        pipeline_fold df idxCol tcSrc tcDest tCodes iaSrc iaTitle aCodes
          dropNames := by
  refine ⟨SkPipeline.mk [
    ("Set dataframe index", .fSetDfIndex, .setIdxArgs idxCol),
    ("Create title_cat column", .fCreateTitleCat,
      .titleCatArgs tcSrc tcDest tCodes),
    ("Impute missing Age values", .fImputeAge,
      .imputeAgeArgs iaSrc iaTitle aCodes),
    ("Drop columns", .fDropColumns, .dropColsArgs dropNames)], ?_, ?_⟩
  · unfold create_pipeline
    rw [h1]
    dsimp only
    rw [h2]
    dsimp only
    rw [h3]
    dsimp only
    rw [h4]
  · intro df
    simp only [SkPipeline.fit_transform, exceptFoldList, runTransformer,
      pipeline_fold]
    cases hx1 : set_df_index (some df) idxCol with
    | error e => rfl
    | ok x1 =>
      dsimp only
      cases hx2 : create_title_cat x1 tcSrc tcDest tCodes with
      | error e => rfl
      | ok x2 =>
        dsimp only
        cases hx3 : impute_age x2 iaSrc iaTitle aCodes with
        | error e => rfl
        | ok x3 =>
          dsimp only
          cases hx4 : drop_columns x3 dropNames with
          | error e => rfl
          | ok y => rfl

def paramsC2 : PipelineParams :=
  [("set_df_index_kw_args", .setIdxArgs "PassengerId"),
   ("create_title_cat_kw_args", .titleCatArgs "Name" "TitleCat"
      [("Mr", "gen_male")]),
   ("drop_columns_kw_args", .dropColsArgs ["Name"]),
   ("impute_age_kw_args", .imputeAgeArgs "Age" "TitleCat" [("gen_male", 30)])]

/-- C2 witness: a fully bound configuration. -/
theorem create_pipeline_fit_transform_in_order_witness :
    ∃ pl, create_pipeline paramsC2 = .ok pl ∧
      ∀ df : DataFrame, pl.fit_transform df =
        pipeline_fold df "PassengerId" "Name" "TitleCat" [("Mr", "gen_male")]
          "Age" "TitleCat" [("gen_male", 30)] ["Name"] :=
  create_pipeline_fit_transform_in_order paramsC2 "PassengerId" "Name"
    "TitleCat" "Age" "TitleCat" [("Mr", "gen_male")] [("gen_male", 30)]
    ["Name"] (by rfl) (by rfl) (by rfl) (by rfl)

/-! ## Claim C5: impute_age when every missing row's category is mapped -/

theorem infer_age_ok (r : Row) (sc tc : String) (ac : List (String × ℤ))
    (h : okAgeRow r sc tc ac = true) :
    infer_age r sc tc ac = .ok (specImputeValue r sc tc ac) := by
  unfold okAgeRow at h
  unfold infer_age specImputeValue
  cases hs : rowGet r sc with
  | none => rw [hs] at h; cases h
  | some v =>
    rw [hs] at h
    cases v with
    | vStr s => exact absurd h (by simp)
    | vNum q => rfl
    | vNaN =>
      cases ht : rowGet r tc with
      | none => rw [ht] at h; exact absurd h (by simp)
      | some tv =>
        rw [ht] at h
        dsimp only
        dsimp only at h
        cases hf : List.find? (fun p => pyEqStr tv p.1) ac with
        | none => rw [hf] at h; exact absurd h (by simp)
        | some p =>
          cases ac with
          | nil => simp [List.find?] at hf
          | cons a as => rfl

/-- C5: on a table where every row either has a numeric source value or has a
missing source value with a category present in the fill-value mapping,
impute_age returns a table with the same row count, whose source column holds
the spec-described value in every row (mapping value for missing rows, the
whole-number coercion of the original value otherwise), and whose other
columns are untouched. -/
theorem impute_age_full_mapping (df : DataFrame) (sc tc : String)
    (ac : List (String × ℤ))
    (h : ∀ r ∈ df.rows, okAgeRow r sc tc ac = true) :
    ∃ df2, impute_age (some df) sc tc ac = .ok (some df2) ∧
      df2.rows.length = df.rows.length ∧
      List.Forall₂ (fun r r2 =>
        rowGet r2 sc = some (specImputeValue r sc tc ac) ∧
        ∀ c, c ≠ sc → rowGet r2 c = rowGet r c) df.rows df2.rows := by
  have hmap : exceptMapList (fun r => infer_age r sc tc ac) df.rows =
      .ok (df.rows.map (fun r => specImputeValue r sc tc ac)) :=
    exceptMapList_ok_of_fn _ _ df.rows
      (fun r hr => infer_age_ok r sc tc ac (h r hr))
  refine ⟨df.setColVals sc (df.rows.map (fun r => specImputeValue r sc tc ac)),
    ?_, ?_, ?_⟩
  · simp [impute_age, hmap]
  · simp [DataFrame.setColVals, List.length_zipWith]
  · simp only [DataFrame.setColVals]
    exact forall2_zipWith_map _ sc _ df.rows
      (fun r hr => ⟨rowGet_rowSet_self r sc _,
        fun c hc => rowGet_rowSet_ne r sc c _ hc⟩)

def dfC5 : DataFrame :=
  { cols := ["Age", "TitleCat"],
    rows := [[("Age", PyVal.vNaN), ("TitleCat", PyVal.vStr "gen_male")],
             [("Age", PyVal.vNum (45 / 2)),
              ("TitleCat", PyVal.vStr "gen_female")]],
    index := [] }

def ageCodesC5 : List (String × ℤ) := [("gen_male", 30), ("gen_female", 35)]

/-- C5 witness: one missing row with a mapped category and one row with the
fractional age 22.5 (coerced to 22). -/
theorem impute_age_full_mapping_witness :
    ∃ df2, impute_age (some dfC5) "Age" "TitleCat" ageCodesC5 =
        .ok (some df2) ∧
      df2.rows.length = dfC5.rows.length ∧
      List.Forall₂ (fun r r2 =>
        rowGet r2 "Age" = some (specImputeValue r "Age" "TitleCat" ageCodesC5) ∧
        ∀ c, c ≠ "Age" → rowGet r2 c = rowGet r c) dfC5.rows df2.rows :=
  impute_age_full_mapping dfC5 "Age" "TitleCat" ageCodesC5
    (by intro r hr; fin_cases hr <;> rfl)

/-! ## Claim C7: create_family_size is sum of source columns plus one -/

theorem foldl_addNum (vs : List PyVal) : ∀ acc : ℚ,
    vs.foldl (fun acc v => match v with | PyVal.vNum q => acc + q | _ => acc)
      acc =
    acc + (vs.map
      (fun v => match v with | PyVal.vNum q => q | _ => 0)).sum := by
  induction vs with
  | nil => intro acc; simp
  | cons v vs ih =>
    intro acc
    cases v with
    | vNum q => simp [List.foldl, ih, List.sum_cons]; ring
    | vStr s => simp [List.foldl, ih]
    | vNaN => simp [List.foldl, ih]

theorem rowSumCols_ok (r : Row) (cs : List String)
    (h : ∀ c ∈ cs, isNumCell (rowGet r c) = true) :
    rowSumCols r cs = .ok (specRowSum r cs) := by
  have hmap : exceptMapList (fun c => match rowGet r c with
      | some v => Except.ok v
      | none => Except.error (PyErr.keyError c)) cs =
      .ok (cs.map (fun c => match rowGet r c with
        | some v => v
        | none => PyVal.vNaN)) := by
    apply exceptMapList_ok_of_fn
    intro c hc
    have hn := h c hc
    unfold isNumCell at hn
    cases hg : rowGet r c with
    | none => rw [hg] at hn; cases hn
    | some v => rfl
  have hany : (cs.map (fun c => match rowGet r c with
      | some v => v
      | none => PyVal.vNaN)).any
        (fun v => match v with | PyVal.vStr _ => true | _ => false) = false := by
    rw [List.any_eq_false]
    intro x hx
    rw [List.mem_map] at hx
    obtain ⟨c, hc, hcx⟩ := hx
    have hn := h c hc
    unfold isNumCell at hn
    cases hg : rowGet r c with
    | none => rw [hg] at hn; cases hn
    | some v =>
      rw [hg] at hn hcx
      cases v with
      | vNum q => rw [← hcx]; simp
      | vStr s => cases hn
      | vNaN => cases hn
  unfold rowSumCols
  rw [hmap]
  dsimp only
  rw [hany]
  rw [if_neg Bool.false_ne_true]
  rw [foldl_addNum]
  rw [zero_add]
  unfold specRowSum
  rw [List.map_map]
  refine congrArg Except.ok (congrArg List.sum (List.map_congr_left ?_))
  intro c _
  simp only [Function.comp_apply]
  cases hg : rowGet r c with
  | none => rfl
  | some v => cases v <;> rfl

/-- C7: on a table whose rows hold numeric, non-missing values in every
listed source column, create_family_size returns the table extended with the
destination column holding, in every row, exactly the row-wise sum of the
source columns plus one, leaving every other column untouched. -/
theorem create_family_size_adds_sum (df : DataFrame) (cs : List String)
    (dest : String)
    (h : ∀ r ∈ df.rows, ∀ c ∈ cs, isNumCell (rowGet r c) = true) :
    ∃ df2, create_family_size (some df) cs dest = .ok (some df2) ∧
      df2.rows.length = df.rows.length ∧
      List.Forall₂ (fun r r2 =>
        rowGet r2 dest = some (PyVal.vNum (specRowSum r cs + 1)) ∧
        ∀ c, c ≠ dest → rowGet r2 c = rowGet r c) df.rows df2.rows := by
  have hmap : exceptMapList
      (fun r => (rowSumCols r cs).map (fun q => PyVal.vNum (q + 1))) df.rows =
      .ok (df.rows.map (fun r => PyVal.vNum (specRowSum r cs + 1))) := by
    apply exceptMapList_ok_of_fn
    intro r hr
    show (rowSumCols r cs).map (fun q => PyVal.vNum (q + 1)) = _
    rw [rowSumCols_ok r cs (h r hr)]
    rfl
  refine ⟨df.setColVals dest
      (df.rows.map (fun r => PyVal.vNum (specRowSum r cs + 1))), ?_, ?_, ?_⟩
  · simp [create_family_size, hmap]
  · simp [DataFrame.setColVals, List.length_zipWith]
  · simp only [DataFrame.setColVals]
    exact forall2_zipWith_map _ dest _ df.rows
      (fun r hr => ⟨rowGet_rowSet_self r dest _,
        fun c hc => rowGet_rowSet_ne r dest c _ hc⟩)

def dfC7 : DataFrame :=
  { cols := ["SibSp", "Parch"],
    rows := [[("SibSp", PyVal.vNum 1), ("Parch", PyVal.vNum 2)],
             [("SibSp", PyVal.vNum 0), ("Parch", PyVal.vNum 0)]],
    index := [] }

/-- C7 witness: family sizes 1+2+1 and 0+0+1. -/
theorem create_family_size_adds_sum_witness :
    ∃ df2, create_family_size (some dfC7) ["SibSp", "Parch"] "FamilySize" =
        .ok (some df2) ∧
      df2.rows.length = dfC7.rows.length ∧
      List.Forall₂ (fun r r2 =>
        rowGet r2 "FamilySize" =
          some (PyVal.vNum (specRowSum r ["SibSp", "Parch"] + 1)) ∧
        ∀ c, c ≠ "FamilySize" → rowGet r2 c = rowGet r c)
        dfC7.rows df2.rows :=
  create_family_size_adds_sum dfC7 ["SibSp", "Parch"] "FamilySize"
    (by intro r hr; fin_cases hr <;> exact (by intro c hc; fin_cases hc <;> rfl))

/-! ## Claim C6: derive-title-category extraction and mapping -/

theorem all_takeWhile (p : Char → Bool) (l : List Char) :
    (l.takeWhile p).all p = true := by
  simp [List.all_eq_true]

theorem titleMatchAt_some (ch : Char) (rest : List Char) (run : List Char)
    (h : titleMatchAt (ch :: rest) = some run) :
    ch = ' ' ∧ run = rest.takeWhile isAsciiAlpha ∧ run ≠ [] ∧
      ∃ tail, rest.dropWhile isAsciiAlpha = '.' :: tail := by
  unfold titleMatchAt at h
  dsimp only at h
  by_cases hch : ch = ' '
  · rw [if_pos hch] at h
    cases hd : rest.dropWhile isAsciiAlpha with
    | nil => rw [hd] at h; cases h
    | cons d tl =>
      rw [hd] at h
      dsimp only at h
      by_cases hdot : d = '.'
      · rw [if_pos hdot] at h
        by_cases hemp : (rest.takeWhile isAsciiAlpha).isEmpty = true
        · rw [if_pos hemp] at h; cases h
        · rw [if_neg hemp] at h
          cases h
          refine ⟨hch, rfl, ?_, tl, by rw [hdot]⟩
          intro hnil
          rw [List.isEmpty_iff] at hemp
          exact hemp hnil
      · rw [if_neg hdot] at h; cases h
  · rw [if_neg hch] at h; cases h

theorem titleSearch_decomp :
    ∀ (l run : List Char), titleSearch l = some run →
      ∃ pre post, l = pre ++ ' ' :: (run ++ '.' :: post) ∧
        run.all isAsciiAlpha = true ∧ run ≠ [] := by
  intro l
  induction l with
  | nil => intro run h; cases h
  | cons ch rest ih =>
    intro run h
    simp only [titleSearch] at h
    cases hm : titleMatchAt (ch :: rest) with
    | some run0 =>
      rw [hm] at h
      obtain ⟨hch, hrun, hne, tail, htail⟩ := titleMatchAt_some ch rest run0 hm
      have hrr : run = run0 := by cases h; rfl
      subst hrr
      refine ⟨[], tail, ?_, ?_, hne⟩
      · have hsplit := List.takeWhile_append_dropWhile isAsciiAlpha rest
        rw [htail] at hsplit
        rw [hch, hrun, List.nil_append, hsplit]
      · rw [hrun]
        exact all_takeWhile isAsciiAlpha rest
    | none =>
      rw [hm] at h
      obtain ⟨pre, post, hl, hall, hne⟩ := ih run h
      exact ⟨ch :: pre, post, by rw [hl]; rfl, hall, hne⟩

/-- The token extracted by the title regex is genuinely a word that sits
between a space and a literal period in the source text. -/
theorem extract_title_str_shape (s : String) (h : extract_title_str s ≠ "") :
    ∃ pre post, s.data =
        pre ++ ' ' :: ((extract_title_str s).data ++ '.' :: post) ∧
      (extract_title_str s).data.all isAsciiAlpha = true := by
  unfold extract_title_str at h ⊢
  cases hs : titleSearch s.data with
  | none => rw [hs] at h; exact absurd rfl h
  | some run =>
    rw [hs] at h
    obtain ⟨pre, post, hl, hall, hne⟩ := titleSearch_decomp s.data run hs
    exact ⟨pre, post, hl, hall⟩

theorem extract_title_ok (r : Row) (sc : String)
    (h : isStrCell (rowGet r sc) = true) :
    extract_title r sc = .ok (rowTitleToken r sc) := by
  unfold isStrCell at h
  unfold extract_title rowTitleToken
  cases hs : rowGet r sc with
  | none => rw [hs] at h; cases h
  | some v =>
    rw [hs] at h
    cases v with
    | vStr s => rfl
    | vNum q => cases h
    | vNaN => cases h

/-- C6: on a table whose source column holds a string in every row,
create_title_cat returns a table whose destination column holds, in every
row, the code-table image of the extracted token (tokens absent from the code
table pass through unchanged, by definition of `seriesReplace`), leaving the
other columns untouched; the extracted token is the empty string exactly when
the pattern has no match, and a nonempty extracted token is a run of letters
between a space and a literal period in the source text. -/
theorem create_title_cat_per_row (df : DataFrame) (sc dc : String)
    (codes : List (String × String))
    (h : ∀ r ∈ df.rows, isStrCell (rowGet r sc) = true) :
    (∃ df2, create_title_cat (some df) sc dc codes = .ok (some df2) ∧
      df2.rows.length = df.rows.length ∧
      List.Forall₂ (fun r r2 =>
        rowGet r2 dc =
          some (PyVal.vStr (seriesReplace codes (rowTitleToken r sc))) ∧
        ∀ c, c ≠ dc → rowGet r2 c = rowGet r c) df.rows df2.rows) ∧
    (∀ s : String, titleSearch s.data = none → extract_title_str s = "") ∧
    (∀ s : String, extract_title_str s ≠ "" →
      ∃ pre post, s.data =
          pre ++ ' ' :: ((extract_title_str s).data ++ '.' :: post) ∧
        (extract_title_str s).data.all isAsciiAlpha = true) := by
  refine ⟨?_, ?_, extract_title_str_shape⟩
  · have hmap : exceptMapList (fun r => extract_title r sc) df.rows =
        .ok (df.rows.map (fun r => rowTitleToken r sc)) :=
      exceptMapList_ok_of_fn _ _ df.rows
        (fun r hr => extract_title_ok r sc (h r hr))
    refine ⟨df.setColVals dc (df.rows.map
        (fun r => PyVal.vStr (seriesReplace codes (rowTitleToken r sc)))),
      ?_, ?_, ?_⟩
    · simp only [create_title_cat, hmap]
      rw [List.map_map]
      rfl
    · simp [DataFrame.setColVals, List.length_zipWith]
    · simp only [DataFrame.setColVals]
      exact forall2_zipWith_map _ dc _ df.rows
        (fun r hr => ⟨rowGet_rowSet_self r dc _,
          fun c hc => rowGet_rowSet_ne r dc c _ hc⟩)
  · intro s hs
    unfold extract_title_str
    rw [hs]

def dfC6 : DataFrame :=
  { cols := ["Name"],
    rows := [[("Name", PyVal.vStr "Braund, Mr. Owen Harris")],
             [("Name", PyVal.vStr "NoTitleInThisRow")],
             [("Name", PyVal.vStr "Custom, Sir. Unmapped")]],
    index := [] }

def titleCodesC6 : List (String × String) := [("Mr", "gen_male")]

/-- C6 witness: a mapped title, a row with no pattern match, and an unmapped
token passing through. -/
theorem create_title_cat_per_row_witness :
    (∃ df2, create_title_cat (some dfC6) "Name" "TitleCategory" titleCodesC6 =
        .ok (some df2) ∧
      df2.rows.length = dfC6.rows.length ∧
      List.Forall₂ (fun r r2 =>
        rowGet r2 "TitleCategory" =
          some (PyVal.vStr (seriesReplace titleCodesC6
            (rowTitleToken r "Name"))) ∧
        ∀ c, c ≠ "TitleCategory" → rowGet r2 c = rowGet r c)
        dfC6.rows df2.rows) ∧
    (∀ s : String, titleSearch s.data = none → extract_title_str s = "") ∧
    (∀ s : String, extract_title_str s ≠ "" →
      ∃ pre post, s.data =
          pre ++ ' ' :: ((extract_title_str s).data ++ '.' :: post) ∧
        (extract_title_str s).data.all isAsciiAlpha = true) :=
  create_title_cat_per_row dfC6 "Name" "TitleCategory" titleCodesC6
    (by intro r hr; fin_cases hr <;> rfl)

/-! ## Claim C8: create_title_cat is idempotent (same mapping, fresh run) -/

theorem extract_title_rowSet_ne (r : Row) (sc dc : String) (v : PyVal)
    (hne : sc ≠ dc) :
    extract_title (rowSet r dc v) sc = extract_title r sc := by
  unfold extract_title
  rw [rowGet_rowSet_ne r dc sc v hne]

theorem exceptMapList_extract_rowSet (sc dc : String) (hne : sc ≠ dc)
    (f : String → PyVal) :
    ∀ (rows : List Row) (titles : List String),
      exceptMapList (fun r => extract_title r sc) rows = .ok titles →
      exceptMapList (fun r => extract_title r sc)
        (List.zipWith (fun r v => rowSet r dc v) rows (titles.map f)) =
        .ok titles := by
  intro rows
  induction rows with
  | nil =>
    intro titles h
    cases h
    rfl
  | cons r rows ih =>
    intro titles h
    simp only [exceptMapList] at h
    cases he : extract_title r sc with
    | error e => rw [he] at h; cases h
    | ok t =>
      rw [he] at h
      dsimp only at h
      cases hm : exceptMapList (fun r => extract_title r sc) rows with
      | error e => rw [hm] at h; cases h
      | ok ts =>
        rw [hm] at h
        dsimp only at h
        cases h
        simp only [List.map_cons, List.zipWith_cons_cons]
        have h1 : extract_title (rowSet r dc (f t)) sc = .ok t := by
          rw [extract_title_rowSet_ne r sc dc (f t) hne, he]
        simp only [exceptMapList, h1, ih ts hm]

theorem setColVals_cols_contains (df : DataFrame) (c : String)
    (vs : List PyVal) :
    (df.setColVals c vs).cols.contains c = true := by
  unfold DataFrame.setColVals
  dsimp only
  cases h : df.cols.contains c with
  | true => simpa using h
  | false => simp

theorem zipWith_rowSet_idem (dc : String) :
    ∀ (rows : List Row) (vals : List PyVal),
      List.zipWith (fun r v => rowSet r dc v)
        (List.zipWith (fun r v => rowSet r dc v) rows vals) vals =
      List.zipWith (fun r v => rowSet r dc v) rows vals := by
  intro rows
  induction rows with
  | nil => intro vals; rfl
  | cons r rows ih =>
    intro vals
    cases vals with
    | nil => rfl
    | cons v vs =>
      simp only [List.zipWith_cons_cons, rowSet_rowSet_same, ih]

theorem setColVals_idem (df : DataFrame) (c : String) (vs : List PyVal) :
    (df.setColVals c vs).setColVals c vs = df.setColVals c vs := by
  have hc := setColVals_cols_contains df c vs
  unfold DataFrame.setColVals at hc ⊢
  dsimp only at hc ⊢
  rw [if_pos (by simpa using hc)]
  rw [zipWith_rowSet_idem]

/-- C8: applying create_title_cat a second time, with the same source column,
destination column and code table, to its own successful output returns that
output unchanged — in particular no row's destination value changes,
regardless of whether it lies in the code table's value set — provided the
source and destination columns are distinct. -/
theorem create_title_cat_idempotent (df df1 : DataFrame) (sc dc : String)
    (codes : List (String × String)) (hne : sc ≠ dc)
    (h : create_title_cat (some df) sc dc codes = .ok (some df1)) :
    create_title_cat (some df1) sc dc codes = .ok (some df1) := by
  unfold create_title_cat at h
  dsimp only at h
  cases hm : exceptMapList (fun r => extract_title r sc) df.rows with
  | error e => rw [hm] at h; cases h
  | ok titles =>
    rw [hm] at h
    dsimp only at h
    cases h
    unfold create_title_cat
    have h2 := exceptMapList_extract_rowSet sc dc hne
      (fun t => PyVal.vStr (seriesReplace codes t)) df.rows titles hm
    show (match exceptMapList (fun r => extract_title r sc)
        (df.setColVals dc (titles.map
          (fun t => PyVal.vStr (seriesReplace codes t)))).rows with
      | Except.ok ts => Except.ok (some ((df.setColVals dc (titles.map
          (fun t => PyVal.vStr (seriesReplace codes t)))).setColVals dc
          (ts.map (fun t => PyVal.vStr (seriesReplace codes t)))))
      | Except.error _ => Except.ok none) = _
    rw [show (df.setColVals dc (titles.map
        (fun t => PyVal.vStr (seriesReplace codes t)))).rows =
        List.zipWith (fun r v => rowSet r dc v) df.rows
          (titles.map (fun t => PyVal.vStr (seriesReplace codes t))) from rfl]
    rw [h2]
    dsimp only
    rw [setColVals_idem]

def dfC8 : DataFrame :=
  { cols := ["Name"],
    rows := [[("Name", PyVal.vStr "Braund, Mr. Owen Harris")],
             [("Name", PyVal.vStr "Heikkinen, Miss. Laina")]],
    index := [] }

def titleCodesC8 : List (String × String) :=
  [("Mr", "gen_male"), ("Miss", "young_female")]

def dfC8out : DataFrame :=
  { cols := ["Name", "TitleCat"],
    rows := [[("Name", PyVal.vStr "Braund, Mr. Owen Harris"),
              ("TitleCat", PyVal.vStr "gen_male")],
             [("Name", PyVal.vStr "Heikkinen, Miss. Laina"),
              ("TitleCat", PyVal.vStr "young_female")]],
    index := [] }

/-- C8 witness: re-running the transform on its own output (rows already
mapped into the code table's value set) changes nothing. -/
theorem create_title_cat_idempotent_witness :
    create_title_cat (some dfC8out) "Name" "TitleCat" titleCodesC8 =
      .ok (some dfC8out) :=
  create_title_cat_idempotent dfC8 dfC8out "Name" "TitleCat" titleCodesC8
    (by decide) (by rfl)
